import Mathlib

/-!
# Verification of the HTTP framing / JSON-RPC envelope layer (rpcprotocol.cpp)

Shallow embedding of `src/rpcprotocol.cpp`.  Byte streams are `List Char`
(one `Char` per byte), C++ `std::string` is `String`, `std::map<string,string>`
is an association list with overwrite-on-insert (`mapInsert` / `mapFind`).
External collaborators that are not part of the repository fragment are
passed as parameters:

* `rfc1123Time()` / `FormatFullVersion()` (wall clock and version string)
  become explicit `time` / `version : String` arguments;
* the json_spirit serializer `write_string` becomes an explicit
  `ws : JValue → String` argument (the spec treats the JSON value tree and
  its serialization as an opaque collaborator).

Loops whose C++ termination argument is "the stream shrinks" are embedded
with an explicit fuel parameter; the top-level wrappers always supply
sufficient fuel (`stream.length + 1` lines for the header loop, `n` chunks
for an `n`-byte body), so the fuel-exhaustion branches are unreachable, as
the fuel-irrelevance lemmas below prove.
-/

/-- `isspace` on the default C locale (used by `boost::trim` and `atoi`). -/
def isSpaceChar (c : Char) : Bool :=
  c = ' ' || c = '\t' || c = '\n' || c = '\r' || c = '\x0b' || c = '\x0c'

/-- ASCII `tolower`, as applied per character by `boost::to_lower`. -/
def toLowerChar (c : Char) : Char :=
  if 'A' ≤ c ∧ c ≤ 'Z' then Char.ofNat (c.toNat + 32) else c

/-- `boost::trim`: strip leading and trailing whitespace. -/
def trimChars (s : List Char) : List Char :=
  ((s.dropWhile isSpaceChar).reverse.dropWhile isSpaceChar).reverse

/-- Digit-consuming loop of C `atoi`: accumulate leading decimal digits,
stop at the first non-digit. -/
def atoiDigits : List Char → Nat → Nat
  | [], acc => acc
  | c :: cs, acc => if c.isDigit then atoiDigits cs (acc * 10 + (c.toNat - 48)) else acc

/-- Sign handling of C `atoi` (after whitespace has been skipped). -/
def atoiSigned (s : List Char) : Int :=
  match s with
  | [] => 0
  | c :: cs =>
    if c = '-' then -(atoiDigits cs 0 : Int)
    else if c = '+' then (atoiDigits cs 0 : Int)
    else (atoiDigits (c :: cs) 0 : Int)

/-- C `atoi`: skip leading whitespace, read an optional sign, then leading
digits; returns 0 when no digits are found.  (Overflow is not modelled; all
uses in the claims stay far below `INT_MAX`.) -/
def atoi (s : List Char) : Int :=
  atoiSigned (s.dropWhile isSpaceChar)

/-- The ASCII character of a decimal digit value. -/
def digitChar (m : Nat) : Char := Char.ofNat (48 + m)

/-- Decimal printing loop (what `operator<<(size_t)` / `strprintf %u` emit),
most significant digit first; `fuel ≥ n` suffices. -/
def natDecimalAux : Nat → Nat → List Char → List Char
  | _, 0, acc => acc
  | 0, _ + 1, acc => acc
  | fuel + 1, n + 1, acc =>
    natDecimalAux fuel ((n + 1) / 10) (digitChar ((n + 1) % 10) :: acc)

/-- Decimal rendering of a natural number. -/
def natDecimal (n : Nat) : List Char :=
  if n = 0 then ['0'] else natDecimalAux n n []

/-- Decimal rendering of a signed integer (`strprintf %d`). -/
def intDecimal (n : Int) : List Char :=
  if n < 0 then '-' :: natDecimal n.natAbs else natDecimal n.toNat

/-- `std::getline(stream, str)`: the characters before the first `'\n'`
(terminator consumed, not stored) and the remaining stream; at end of
stream it yields the empty line, which the header loop treats as the
terminator, matching the C++ failbit behaviour observable here. -/
def getlineChars : List Char → List Char × List Char
  | [] => ([], [])
  | c :: cs =>
    if c = '\n' then ([], cs)
    else
      let p := getlineChars cs
      (c :: p.1, p.2)

/-- `str.find(":")` + the two `substr` calls: split a line at its first
colon; `none` when the line has no colon. -/
def splitAtColon : List Char → Option (List Char × List Char)
  | [] => none
  | c :: cs =>
    if c = ':' then some ([], cs)
    else (splitAtColon cs).map (fun p => (c :: p.1, p.2))

/-- `boost::split(vWords, str, boost::is_any_of(" "))`: split at every
space, keeping empty tokens (token_compress off). -/
def splitOnSpace : List Char → List (List Char)
  | [] => [[]]
  | c :: cs =>
    if c = ' ' then [] :: splitOnSpace cs
    else
      match splitOnSpace cs with
      | [] => [[c]]
      | t :: ts => (c :: t) :: ts

/-- `strstr(hay, needle)` followed by `+ needle.length`: the suffix of the
haystack right after the first occurrence of the needle. -/
def dropAfterMatch (needle : List Char) : List Char → Option (List Char)
  | [] => if needle.isPrefixOf ([] : List Char) then some [] else none
  | c :: t =>
    if needle.isPrefixOf (c :: t) then some ((c :: t).drop needle.length)
    else dropAfterMatch needle t

/-- `std::map` assignment `m[k] = v`: replace the value when the key is
present, append otherwise. -/
def mapInsert (m : List (String × String)) (k v : String) : List (String × String) :=
  match m with
  | [] => [(k, v)]
  | (k', v') :: rest => if k' = k then (k, v) :: rest else (k', v') :: mapInsert rest k v

/-- `std::map` lookup. -/
def mapFind (m : List (String × String)) (k : String) : Option String :=
  match m with
  | [] => none
  | (k', v') :: rest => if k' = k then some v' else mapFind rest k

/-- Header-name canonicalization of `ReadHTTPHeaders`: `boost::trim` then
`boost::to_lower`. -/
def canonName (nm : List Char) : String :=
  String.mk ((trimChars nm).map toLowerChar)

/-! ## HTTP status codes

Modelled from the spec: the numeric constants live in `rpcprotocol.h`,
which is not part of the given fragment; the spec fixes the status table
(`200→"OK"`, `400→"Bad Request"`, `403→"Forbidden"`, `404→"Not Found"`,
`500→"Internal Server Error"`) and the 401 unauthorized special path. -/

def HTTP_OK : Int := 200

def HTTP_BAD_REQUEST : Int := 400

def HTTP_UNAUTHORIZED : Int := 401

def HTTP_FORBIDDEN : Int := 403

def HTTP_NOT_FOUND : Int := 404

def HTTP_INTERNAL_SERVER_ERROR : Int := 500

/-- `httpStatusDescription`: reason phrase table; unknown codes map to `""`. -/
def httpStatusDescription (nStatus : Int) : String :=
  if nStatus = HTTP_OK then "OK"
  else if nStatus = HTTP_BAD_REQUEST then "Bad Request"
  else if nStatus = HTTP_FORBIDDEN then "Forbidden"
  else if nStatus = HTTP_NOT_FOUND then "Not Found"
  else if nStatus = HTTP_INTERNAL_SERVER_ERROR then "Internal Server Error"
  else ""

/-- A single-quote character as a string (kept out of string literals). -/
def sglq : String := "\x27"

/-- `HTTPReplyHeader(nStatus, keepalive, contentLength, contentType)`;
`time` stands for `rfc1123Time()` and `version` for `FormatFullVersion()`. -/
def HTTPReplyHeader (time version : String) (nStatus : Int) (keepalive : Bool)
    (contentLength : Nat) (contentType : String) : String :=
  "HTTP/1.1 " ++ String.mk (intDecimal nStatus) ++ " " ++ httpStatusDescription nStatus ++
  "\nDate: " ++ time ++
  "\nConnection: " ++ (if keepalive then "keep-alive" else "close") ++
  "\nContent-Length: " ++ String.mk (natDecimal contentLength) ++
  "\nContent-Type: " ++ contentType ++
  "\nServer: nodex-json-rpc/" ++ version ++ "\n\n"

/-- `HTTPReply(nStatus, strMsg, keepalive, headersOnly, contentType)`. -/
def HTTPReply (time version : String) (nStatus : Int) (strMsg : String)
    (keepalive headersOnly : Bool) (contentType : String) : String :=
  if headersOnly then HTTPReplyHeader time version nStatus keepalive 0 contentType
  else HTTPReplyHeader time version nStatus keepalive strMsg.length contentType ++ strMsg

/-- The fixed HTML body of the 401 response (296 bytes in the source). -/
def unauthorizedBody : String :=
  "<!DOCTYPE HTML PUBLIC \"-//W3C//DTD HTML 4.01 Transitional//EN\"\n" ++
  "\"http://www.w3.org/TR/1999/REC-html401-19991224/loose.dtd\">\n" ++
  "<HTML>\n<HEAD>\n<TITLE>Error</TITLE>\n" ++
  "<META HTTP-EQUIV=" ++ sglq ++ "Content-Type" ++ sglq ++ " CONTENT=" ++ sglq ++
  "text/html; charset=ISO-8859-1" ++ sglq ++ ">\n" ++
  "</HEAD>\n<BODY><H1>401 Unauthorized.</H1></BODY>\n</HTML>\n"

/-- `HTTPError(nStatus, keepalive, headersOnly)`: the 401 special path emits
the fixed literal response (with the `Date` and `Server` headers rendered
from `rfc1123Time()`/`FormatFullVersion()`, here the `time`/`version`
parameters); every other status goes through `HTTPReply` with the
`text/plain` content type. -/
def HTTPError (time version : String) (nStatus : Int) (keepalive headersOnly : Bool) : String :=
  if nStatus = HTTP_UNAUTHORIZED then
    "HTTP/1.0 401 Authorization Required\n" ++
    "Date: " ++ time ++ "\n" ++
    "Server: nodex-json-rpc/" ++ version ++ "\n" ++
    "WWW-Authenticate: Basic realm=\"jsonrpc\"\n" ++
    "Content-Type: text/html\n" ++
    "Content-Length: 296\n" ++
    "\n" ++ unauthorizedBody
  else
    HTTPReply time version nStatus (httpStatusDescription nStatus) keepalive headersOnly
      "text/plain"

/-- The extra request headers appended by `HTTPPost`'s BOOST_FOREACH loop. -/
def headerLinesStr (hs : List (String × String)) : String :=
  hs.foldl (fun acc kv => acc ++ kv.1 ++ ": " ++ kv.2 ++ "\n") ""

/-- `HTTPPost(strMsg, mapRequestHeaders)`; `version` stands for
`FormatFullVersion()`. -/
def HTTPPost (version : String) (strMsg : String)
    (mapRequestHeaders : List (String × String)) : String :=
  "POST / HTTP/1.1\n" ++
  "User-Agent: nodex-json-rpc/" ++ version ++ "\n" ++
  "Host: 127.0.0.1\n" ++
  "Content-Type: application/json\n" ++
  "Content-Length: " ++ String.mk (natDecimal strMsg.length) ++ "\n" ++
  "Connection: close\n" ++
  "Accept: application/json\n" ++
  headerLinesStr mapRequestHeaders ++
  "\n" ++ strMsg

/-! ## JSON values (json_spirit) -/

/-- The opaque json_spirit value tree, as far as this layer observes it
(the spec: a tagged value of null/boolean/number/string/array/object;
the floating-point `real_type` arm is out of scope and never inspected
by this layer). -/
inductive JValue where
  | jnull : JValue
  | jbool : Bool → JValue
  | jint : Int → JValue
  | jstr : String → JValue
  | jarr : List JValue → JValue
  | jobj : List (String × JValue) → JValue

/-- `Value::type() == null_type`. -/
def JValue.isNull : JValue → Bool
  | JValue.jnull => true
  | _ => false

/-- `JSONRPCRequest(strMethod, params, id)`: the envelope
`{method, params, id}` handed to the external serializer `ws`
(json_spirit `write_string`), with the trailing newline appended. -/
def JSONRPCRequest (ws : JValue → String) (strMethod : String) (params : List JValue)
    (id : JValue) : String :=
  ws (JValue.jobj [("method", JValue.jstr strMethod), ("params", JValue.jarr params),
    ("id", id)]) ++ "\n"

/-- `JSONRPCReplyObj(result, error, id)`: the reply object, with `result`
forced to null whenever `error` is non-null. -/
def JSONRPCReplyObj (result error id : JValue) : List (String × JValue) :=
  (if error.isNull then [("result", result)] else [("result", JValue.jnull)]) ++
  [("error", error), ("id", id)]

/-! ## Inbound parsing -/

/-- The `"HTTP/1."` marker scan shared by `ReadHTTPRequestLine` and
`ReadHTTPStatus`: `ver = strstr(s, "HTTP/1."); ver ? atoi(ver + 7) : 0`. -/
def protoFromToken (t : List Char) : Int :=
  match dropAfterMatch (("HTTP/1.").data) t with
  | none => 0
  | some r => atoi r

/-- `ReadHTTPRequestLine`, applied to one already-extracted line: `none`
models returning `false`; `some (proto, method, uri)` models returning
`true` with the three out-parameters. -/
def ReadHTTPRequestLine (line : List Char) : Option (Int × String × String) :=
  let vWords := splitOnSpace line
  if vWords.length < 2 then none
  else
    let http_method := String.mk (vWords.getD 0 [])
    if http_method ≠ "GET" ∧ http_method ≠ "POST" then none
    else
      let http_uri := vWords.getD 1 []
      if http_uri = [] then none
      else if http_uri.headD ' ' ≠ '/' then none
      else some (protoFromToken (vWords.getD 2 []), http_method, String.mk http_uri)

/-- `ReadHTTPStatus(stream, proto)`: returns the status, the `proto`
out-parameter (`none` models "left untouched", on the early sentinel
return), and the remaining stream. -/
def ReadHTTPStatus (s : List Char) : Int × Option Int × List Char :=
  let p := getlineChars s
  let vWords := splitOnSpace p.1
  if vWords.length < 2 then (HTTP_INTERNAL_SERVER_ERROR, none, p.2)
  else (atoi (vWords.getD 1 []), some (protoFromToken p.1), p.2)

/-- Result of `ReadHTTPHeaders`: the declared content length, the header
map, and the remaining stream. -/
structure HeadersOut where
  nLen : Int
  headers : List (String × String)
  rest : List Char
deriving DecidableEq, Repr

/-- The `ReadHTTPHeaders` loop: read lines until an empty line; for each
line with a colon, trim+lowercase the name, trim the value, store it
(last write wins), and track the `content-length` value via `atoi`.
One unit of fuel per line; each line consumes at least one stream
character, so `stream.length + 1` fuel is always enough. -/
def ReadHTTPHeadersAux : Nat → List Char → List (String × String) → Int → HeadersOut
  | 0, s, m, len => ⟨len, m, s⟩
  | fuel + 1, s, m, len =>
    let p := getlineChars s
    if p.1 = [] then ⟨len, m, p.2⟩
    else
      match splitAtColon p.1 with
      | none => ReadHTTPHeadersAux fuel p.2 m len
      | some (nm, v) =>
        let strHeader := canonName nm
        ReadHTTPHeadersAux fuel p.2 (mapInsert m strHeader (String.mk (trimChars v)))
          (if strHeader = "content-length" then atoi (trimChars v) else len)

/-- `ReadHTTPHeaders(stream, mapHeadersRet)` with the caller's empty map. -/
def ReadHTTPHeaders (s : List Char) : HeadersOut :=
  ReadHTTPHeadersAux (s.length + 1) s [] 0

/-- `POST_READ_SIZE`: bytes to allocate and read at most at once. -/
def POST_READ_SIZE : Nat := 256 * 1024

/-- `stream.read(buf, n)`: exactly `n` bytes, or failure (`!stream`) when
the stream ends first — the partially filled buffer is then discarded. -/
def streamRead (s : List Char) (n : Nat) : Option (List Char × List Char) :=
  if n ≤ s.length then some (s.take n, s.drop n) else none

/-- The body-reading loop of `ReadHTTPMessage`: repeatedly read
`min(remaining, POST_READ_SIZE)` bytes until `remaining` is exhausted,
failing as soon as one read fails.  Each iteration consumes at least one
byte of `remaining`, so `remaining` units of fuel always suffice. -/
def readBodyLoopAux : Nat → List Char → Nat → Option (List Char × List Char)
  | _, s, 0 => some ([], s)
  | 0, _, _ + 1 => none
  | fuel + 1, s, r + 1 =>
    let bytes_to_read := min (r + 1) POST_READ_SIZE
    match streamRead s bytes_to_read with
    | none => none
    | some (chunk, s') =>
      match readBodyLoopAux fuel s' (r + 1 - bytes_to_read) with
      | none => none
      | some (b, s'') => some (chunk ++ b, s'')

/-- The body reader: collect exactly `n` bytes in bounded chunks. -/
def readBodyLoop (s : List Char) (n : Nat) : Option (List Char × List Char) :=
  readBodyLoopAux n s n

/-- The `connection`-header normalization at the end of `ReadHTTPMessage`:
`mapHeadersRet["connection"]` (which default-inserts `""` when absent),
then overwrite with `"keep-alive"`/`"close"` unless the value is exactly
one of the two. -/
def normalizeConnection (m : List (String × String)) (nProto : Int) :
    List (String × String) :=
  let sConHdr := (mapFind m "connection").getD ""
  let m1 := if (mapFind m "connection").isSome then m else mapInsert m "connection" ""
  if sConHdr ≠ "close" ∧ sConHdr ≠ "keep-alive" then
    mapInsert m1 "connection" (if 1 ≤ nProto then "keep-alive" else "close")
  else m1

/-- Result of `ReadHTTPMessage`: the returned status and the two
out-parameters `mapHeadersRet` / `strMessageRet`. -/
structure MessageOut where
  status : Int
  headers : List (String × String)
  message : String
deriving DecidableEq, Repr

/-- `ReadHTTPMessage(stream, mapHeadersRet, strMessageRet, nProto, max_size)`:
clear the outputs, read headers, reject a negative or oversize declared
length, read the body in bounded chunks (failing without exposing partial
data), normalize the `connection` header, and return `HTTP_OK`. -/
def ReadHTTPMessage (s : List Char) (nProto : Int) (max_size : Nat) : MessageOut :=
  let h := ReadHTTPHeaders s
  if h.nLen < 0 then ⟨HTTP_INTERNAL_SERVER_ERROR, h.headers, ""⟩
  else if max_size < h.nLen.toNat then ⟨HTTP_INTERNAL_SERVER_ERROR, h.headers, ""⟩
  else if 0 < h.nLen.toNat then
    match readBodyLoop h.rest h.nLen.toNat with
    | none => ⟨HTTP_INTERNAL_SERVER_ERROR, h.headers, ""⟩
    | some (body, _) =>
      ⟨HTTP_OK, normalizeConnection h.headers nProto, String.mk body⟩
  else ⟨HTTP_OK, normalizeConnection h.headers nProto, ""⟩

/-- The digit-fold that `atoiDigits` computes. -/
def digitStep (a : Nat) (c : Char) : Nat := a * 10 + (c.toNat - 48)

/-! ## Helper lemmas -/

theorem getlineChars_append (l r : List Char) (h : '\n' ∉ l) :
    getlineChars (l ++ '\n' :: r) = (l, r) := by
  induction l with
  | nil => simp [getlineChars]
  | cons c cs ih =>
    have hc : c ≠ '\n' := fun hh => h (hh ▸ List.mem_cons_self c cs)
    have hcs : '\n' ∉ cs := fun hh => h (List.mem_cons_of_mem c hh)
    simp [getlineChars, hc, ih hcs]

theorem getlineChars_rest_le (s : List Char) :
    (getlineChars s).2.length ≤ s.length := by
  induction s with
  | nil => simp [getlineChars]
  | cons c cs ih =>
    by_cases hc : c = '\n' <;> simp [getlineChars, hc] <;> omega

theorem getlineChars_rest_lt (s : List Char) (h : (getlineChars s).1 ≠ []) :
    (getlineChars s).2.length < s.length := by
  cases s with
  | nil => simp [getlineChars] at h
  | cons c cs =>
    by_cases hc : c = '\n'
    · simp [getlineChars, hc]
    · have := getlineChars_rest_le cs
      simp [getlineChars, hc]
      omega

theorem splitAtColon_append (pre post : List Char) (h : ':' ∉ pre) :
    splitAtColon (pre ++ ':' :: post) = some (pre, post) := by
  induction pre with
  | nil => simp [splitAtColon]
  | cons c cs ih =>
    have hc : c ≠ ':' := fun hh => h (hh ▸ List.mem_cons_self c cs)
    have hcs : ':' ∉ cs := fun hh => h (List.mem_cons_of_mem c hh)
    simp [splitAtColon, hc, ih hcs]

theorem mapFind_insert_self (m : List (String × String)) (k v : String) :
    mapFind (mapInsert m k v) k = some v := by
  induction m with
  | nil => simp [mapInsert, mapFind]
  | cons kv rest ih =>
    by_cases hk : kv.1 = k <;> simp [mapInsert, mapFind, hk, ih]

theorem mapInsert_overwrite (m : List (String × String)) (k a b : String) :
    mapInsert (mapInsert m k a) k b = mapInsert m k b := by
  induction m with
  | nil => simp [mapInsert]
  | cons kv rest ih =>
    by_cases hk : kv.1 = k <;> simp [mapInsert, hk, ih]

theorem headersAux_fuel (fuel : Nat) :
    ∀ (s : List Char) (m : List (String × String)) (len : Int), s.length < fuel →
      ReadHTTPHeadersAux fuel s m len = ReadHTTPHeadersAux (s.length + 1) s m len := by
  induction fuel using Nat.strong_induction_on with
  | _ fuel ih =>
    intro s m len hlt
    match fuel, hlt with
    | f + 1, hlt =>
      show ReadHTTPHeadersAux (f + 1) s m len = ReadHTTPHeadersAux (s.length + 1) s m len
      simp only [ReadHTTPHeadersAux]
      by_cases hline : (getlineChars s).1 = []
      · simp [hline]
      · have hrest : (getlineChars s).2.length < s.length := getlineChars_rest_lt s hline
        have hf : (getlineChars s).2.length < f := by omega
        have hs : (getlineChars s).2.length < s.length := hrest
        simp only [hline, if_false]
        cases hsc : splitAtColon (getlineChars s).1 with
        | none =>
          simp only [hsc]
          rw [ih f (by omega) _ _ _ hf, ih s.length (by omega) _ _ _ hs]
        | some p =>
          simp only [hsc]
          rw [ih f (by omega) _ _ _ hf, ih s.length (by omega) _ _ _ hs]

theorem headersAux_step (fuel : Nat) (nm v rest : List Char)
    (m : List (String × String)) (len : Int)
    (hfuel : (nm ++ ':' :: v ++ '\n' :: rest).length < fuel)
    (hnm1 : ':' ∉ nm) (hnm2 : '\n' ∉ nm) (hv : '\n' ∉ v) :
    ReadHTTPHeadersAux fuel (nm ++ ':' :: v ++ '\n' :: rest) m len =
      ReadHTTPHeadersAux fuel rest
        (mapInsert m (canonName nm) (String.mk (trimChars v)))
        (if canonName nm = "content-length" then atoi (trimChars v) else len) := by
  have hshape : nm ++ ':' :: v ++ '\n' :: rest = (nm ++ ':' :: v) ++ '\n' :: rest := by
    simp
  have hline : '\n' ∉ nm ++ ':' :: v := by
    intro hmem
    rcases List.mem_append.mp hmem with h1 | h1
    · exact hnm2 h1
    · rcases List.mem_cons.mp h1 with h2 | h2
      · exact absurd h2.symm (by decide)
      · exact hv h2
  have hget : getlineChars (nm ++ ':' :: v ++ '\n' :: rest) = (nm ++ ':' :: v, rest) := by
    rw [hshape]; exact getlineChars_append _ _ hline
  have hne : nm ++ ':' :: v ≠ [] := by
    cases nm <;> simp
  have hsplit : splitAtColon (nm ++ ':' :: v) = some (nm, v) := splitAtColon_append nm v hnm1
  have hlen : rest.length < (nm ++ ':' :: v ++ '\n' :: rest).length := by
    simp [List.length_append]; omega
  set m' := mapInsert m (canonName nm) (String.mk (trimChars v)) with hm'
  set len' := (if canonName nm = "content-length" then atoi (trimChars v) else len) with hl'
  have hstep : ∀ K : Nat,
      ReadHTTPHeadersAux (K + 1) (nm ++ ':' :: v ++ '\n' :: rest) m len =
        ReadHTTPHeadersAux K rest m' len' := by
    intro K
    simp only [ReadHTTPHeadersAux]
    rw [hget]
    dsimp only
    rw [if_neg hne, hsplit]
  have e1 := headersAux_fuel fuel (nm ++ ':' :: v ++ '\n' :: rest) m len hfuel
  have e2 := headersAux_fuel fuel rest m' len' (by omega)
  rw [e1, e2, hstep, headersAux_fuel (nm ++ ':' :: v ++ '\n' :: rest).length rest m' len'
    (by omega)]

theorem headersAux_blank (fuel : Nat) (rest : List Char)
    (m : List (String × String)) (len : Int) (hfuel : 0 < fuel) :
    ReadHTTPHeadersAux fuel ('\n' :: rest) m len = ⟨len, m, rest⟩ := by
  match fuel, hfuel with
  | f + 1, _ =>
    show ReadHTTPHeadersAux (f + 1) _ m len = _
    simp [ReadHTTPHeadersAux, getlineChars]

theorem readBodyLoopAux_exact (fuel : Nat) :
    ∀ (r : Nat) (s : List Char), r ≤ fuel → r ≤ s.length →
      readBodyLoopAux fuel s r = some (s.take r, s.drop r) := by
  induction fuel with
  | zero =>
    intro r s hr _
    interval_cases r
    simp [readBodyLoopAux]
  | succ f ih =>
    intro r s hr hs
    cases r with
    | zero => simp [readBodyLoopAux]
    | succ k =>
      have hbtr1 : 1 ≤ min (k + 1) POST_READ_SIZE := by
        have : 1 ≤ POST_READ_SIZE := by decide
        omega
      have hbtr2 : min (k + 1) POST_READ_SIZE ≤ k + 1 := Nat.min_le_left _ _
      have hread : streamRead s (min (k + 1) POST_READ_SIZE) =
          some (s.take (min (k + 1) POST_READ_SIZE), s.drop (min (k + 1) POST_READ_SIZE)) := by
        simp only [streamRead, if_pos (by omega : min (k + 1) POST_READ_SIZE ≤ s.length)]
      have hrec := ih (k + 1 - min (k + 1) POST_READ_SIZE) (s.drop (min (k + 1) POST_READ_SIZE))
        (by omega) (by simp [List.length_drop]; omega)
      simp only [readBodyLoopAux, hread, hrec]
      have htake : s.take (min (k + 1) POST_READ_SIZE) ++
          (s.drop (min (k + 1) POST_READ_SIZE)).take (k + 1 - min (k + 1) POST_READ_SIZE) =
          s.take (k + 1) := by
        rw [← List.take_add s (min (k + 1) POST_READ_SIZE) (k + 1 - min (k + 1) POST_READ_SIZE)]
        congr 1
        omega
      have hdrop : (s.drop (min (k + 1) POST_READ_SIZE)).drop
          (k + 1 - min (k + 1) POST_READ_SIZE) = s.drop (k + 1) := by
        rw [List.drop_drop]
        congr 1
        omega
      rw [htake, hdrop]

theorem readBodyLoop_exact (s : List Char) (n : Nat) (h : n ≤ s.length) :
    readBodyLoop s n = some (s.take n, s.drop n) :=
  readBodyLoopAux_exact n n s (Nat.le_refl n) h

theorem digitChar_facts (m : Nat) (h : m < 10) :
    (digitChar m).toNat = 48 + m ∧ (digitChar m).isDigit = true := by
  interval_cases m <;> exact ⟨by decide, by decide⟩

theorem isDigit_not_space (c : Char) (h : c.isDigit = true) : isSpaceChar c = false := by
  by_contra hs
  have hs' : isSpaceChar c = true := by
    cases hc : isSpaceChar c
    · exact absurd hc hs
    · rfl
  simp only [isSpaceChar, Bool.or_eq_true, decide_eq_true_eq] at hs'
  rcases hs' with ((((h1 | h1) | h1) | h1) | h1) | h1 <;> subst h1 <;> simp at h

theorem isDigit_ne_newline (c : Char) (h : c.isDigit = true) : c ≠ '\n' := by
  intro hc; subst hc; simp at h

theorem isDigit_ne_minus (c : Char) (h : c.isDigit = true) : c ≠ '-' := by
  intro hc; subst hc; simp at h

theorem isDigit_ne_plus (c : Char) (h : c.isDigit = true) : c ≠ '+' := by
  intro hc; subst hc; simp at h

theorem natDecimalAux_acc (fuel : Nat) :
    ∀ (n : Nat) (acc : List Char), n ≤ fuel →
      natDecimalAux fuel n acc = natDecimalAux fuel n [] ++ acc := by
  induction fuel with
  | zero =>
    intro n acc hn
    interval_cases n
    simp [natDecimalAux]
  | succ f ih =>
    intro n acc _
    cases n with
    | zero => simp [natDecimalAux]
    | succ k =>
      have hq : (k + 1) / 10 ≤ f := by
        have := Nat.div_lt_self (Nat.succ_pos k) (by omega : 1 < 10)
        omega
      show natDecimalAux f ((k + 1) / 10) (digitChar ((k + 1) % 10) :: acc) =
        natDecimalAux f ((k + 1) / 10) (digitChar ((k + 1) % 10) :: []) ++ acc
      rw [ih _ _ hq, ih _ (digitChar ((k + 1) % 10) :: []) hq]
      simp

theorem natDecimalAux_digits (fuel : Nat) :
    ∀ (n : Nat) (acc : List Char), n ≤ fuel → (∀ c ∈ acc, c.isDigit = true) →
      ∀ c ∈ natDecimalAux fuel n acc, c.isDigit = true := by
  induction fuel with
  | zero =>
    intro n acc hn hacc
    interval_cases n
    simpa [natDecimalAux] using hacc
  | succ f ih =>
    intro n acc _ hacc
    cases n with
    | zero => simpa [natDecimalAux] using hacc
    | succ k =>
      have hq : (k + 1) / 10 ≤ f := by
        have := Nat.div_lt_self (Nat.succ_pos k) (by omega : 1 < 10)
        omega
      show ∀ c ∈ natDecimalAux f ((k + 1) / 10) (digitChar ((k + 1) % 10) :: acc),
        c.isDigit = true
      refine ih _ _ hq ?_
      intro c hc
      rcases List.mem_cons.mp hc with h1 | h1
      · subst h1
        exact (digitChar_facts _ (Nat.mod_lt _ (by omega))).2
      · exact hacc c h1

theorem atoiDigits_eq_foldl (l : List Char) :
    ∀ a : Nat, (∀ c ∈ l, c.isDigit = true) → atoiDigits l a = l.foldl digitStep a := by
  induction l with
  | nil => intro a _; simp [atoiDigits]
  | cons c cs ih =>
    intro a hl
    have hc : c.isDigit = true := hl c (List.mem_cons_self c cs)
    have hcs : ∀ x ∈ cs, x.isDigit = true := fun x hx => hl x (List.mem_cons_of_mem c hx)
    simp [atoiDigits, hc, ih _ hcs, digitStep]

theorem natDecimalAux_foldl (fuel : Nat) :
    ∀ (n : Nat) (a : Nat), 1 ≤ n → n ≤ fuel →
      (natDecimalAux fuel n []).foldl digitStep a =
        a * 10 ^ (natDecimalAux fuel n []).length + n := by
  induction fuel with
  | zero => intro n a h1 h2; omega
  | succ f ih =>
    intro n a h1 _
    cases n with
    | zero => omega
    | succ k =>
      have hq : (k + 1) / 10 ≤ f := by
        have := Nat.div_lt_self (Nat.succ_pos k) (by omega : 1 < 10)
        omega
      have hmod : (k + 1) % 10 < 10 := Nat.mod_lt _ (by omega)
      have hd48 : (digitChar ((k + 1) % 10)).toNat = 48 + (k + 1) % 10 :=
        (digitChar_facts _ hmod).1
      show (natDecimalAux f ((k + 1) / 10) [digitChar ((k + 1) % 10)]).foldl digitStep a =
        a * 10 ^ (natDecimalAux f ((k + 1) / 10) [digitChar ((k + 1) % 10)]).length + (k + 1)
      rw [natDecimalAux_acc f _ _ hq, List.foldl_append, List.length_append]
      by_cases hq0 : (k + 1) / 10 = 0
      · have hk : k + 1 < 10 := by
          by_contra hge
          push_neg at hge
          have := Nat.div_pos hge (by omega : 0 < 10)
          omega
        rw [hq0]
        simp only [natDecimalAux, List.foldl_nil, List.foldl_cons, List.length_nil,
          List.length_cons, digitStep, hd48]
        rw [Nat.mod_eq_of_lt hk]
        simp
      · have hq1 : 1 ≤ (k + 1) / 10 := Nat.pos_of_ne_zero hq0
        have hdm : 10 * ((k + 1) / 10) + (k + 1) % 10 = k + 1 := Nat.div_add_mod (k + 1) 10
        have hIH := ih ((k + 1) / 10) a hq1 hq
        simp only [List.foldl_cons, List.foldl_nil, List.length_cons, List.length_nil]
        rw [hIH]
        simp only [digitStep, hd48]
        have hr : 48 + (k + 1) % 10 - 48 = (k + 1) % 10 := by omega
        rw [hr]
        calc (a * 10 ^ (natDecimalAux f ((k + 1) / 10) []).length + (k + 1) / 10) * 10 +
              (k + 1) % 10
            = a * (10 ^ (natDecimalAux f ((k + 1) / 10) []).length * 10) +
              (10 * ((k + 1) / 10) + (k + 1) % 10) := by ring
          _ = a * 10 ^ ((natDecimalAux f ((k + 1) / 10) []).length + 1) + (k + 1) := by
              rw [hdm, pow_succ]

theorem natDecimal_digits (n : Nat) : ∀ c ∈ natDecimal n, c.isDigit = true := by
  by_cases h : n = 0
  · subst h; intro c hc; simp [natDecimal] at hc; subst hc; decide
  · intro c hc
    simp only [natDecimal, if_neg h] at hc
    exact natDecimalAux_digits n n [] (Nat.le_refl n) (by intro x hx; simp at hx) c hc

theorem natDecimal_ne_nil (n : Nat) : natDecimal n ≠ [] := by
  by_cases h : n = 0
  · subst h; simp [natDecimal]
  · simp only [natDecimal, if_neg h]
    cases n with
    | zero => exact absurd rfl h
    | succ k =>
      have hq : (k + 1) / 10 ≤ k := by
        have := Nat.div_lt_self (Nat.succ_pos k) (by omega : 1 < 10)
        omega
      show natDecimalAux k ((k + 1) / 10) [digitChar ((k + 1) % 10)] ≠ []
      rw [natDecimalAux_acc k _ _ hq]
      simp

theorem dropWhile_not_space (l : List Char) (h : ∀ c ∈ l, isSpaceChar c = false) :
    l.dropWhile isSpaceChar = l := by
  cases l with
  | nil => rfl
  | cons c cs =>
    have := h c (List.mem_cons_self c cs)
    simp [List.dropWhile, this]

theorem atoi_natDecimal (n : Nat) : atoi (natDecimal n) = (n : Int) := by
  by_cases h : n = 0
  · subst h; decide
  · have hd := natDecimal_digits n
    have hns : ∀ c ∈ natDecimal n, isSpaceChar c = false :=
      fun c hc => isDigit_not_space c (hd c hc)
    rw [atoi, dropWhile_not_space _ hns]
    obtain ⟨c, cs, hcons⟩ := List.exists_cons_of_ne_nil (natDecimal_ne_nil n)
    have hcd : c.isDigit = true := hd c (by rw [hcons]; exact List.mem_cons_self c cs)
    rw [hcons, atoiSigned, if_neg (isDigit_ne_minus c hcd), if_neg (isDigit_ne_plus c hcd)]
    have hfold : atoiDigits (c :: cs) 0 = (c :: cs).foldl digitStep 0 :=
      atoiDigits_eq_foldl (c :: cs) 0 (by rw [← hcons]; exact hd)
    rw [hfold, ← hcons]
    have hn1 : 1 ≤ n := Nat.pos_of_ne_zero h
    have : natDecimal n = natDecimalAux n n [] := by simp [natDecimal, h]
    rw [this, natDecimalAux_foldl n n 0 hn1 (Nat.le_refl n)]
    simp

theorem trim_space_digits (l : List Char) (h : ∀ c ∈ l, c.isDigit = true) :
    trimChars (' ' :: l) = l := by
  have hns : ∀ c ∈ l, isSpaceChar c = false := fun c hc => isDigit_not_space c (h c hc)
  have h1 : (' ' :: l).dropWhile isSpaceChar = l := by
    simp only [List.dropWhile]
    rw [show isSpaceChar ' ' = true from by decide]
    exact dropWhile_not_space l hns
  have h2 : l.reverse.dropWhile isSpaceChar = l.reverse :=
    dropWhile_not_space l.reverse (fun c hc => hns c (List.mem_reverse.mp hc))
  simp [trimChars, h1, h2]

theorem newline_not_mem_natDecimal (n : Nat) : '\n' ∉ natDecimal n := by
  intro hmem
  have := natDecimal_digits n '\n' hmem
  simp at this

theorem newline_not_mem_append (a b : List Char) (ha : '\n' ∉ a) (hb : '\n' ∉ b) :
    '\n' ∉ a ++ b := by
  intro hmem
  rcases List.mem_append.mp hmem with h | h
  · exact ha h
  · exact hb h

theorem normalizeConnection_eq (m : List (String × String)) (nProto : Int) :
    normalizeConnection m nProto =
      (if (mapFind m "connection").getD "" = "close" ∨
          (mapFind m "connection").getD "" = "keep-alive" then m
       else mapInsert m "connection" (if 1 ≤ nProto then "keep-alive" else "close")) := by
  unfold normalizeConnection
  by_cases hmatch : (mapFind m "connection").getD "" = "close" ∨
      (mapFind m "connection").getD "" = "keep-alive"
  · have hsome : (mapFind m "connection").isSome = true := by
      cases hf : mapFind m "connection" with
      | none => rw [hf] at hmatch; simp at hmatch
      | some v => simp
    have hcond : ¬((mapFind m "connection").getD "" ≠ "close" ∧
        (mapFind m "connection").getD "" ≠ "keep-alive") := by
      rcases hmatch with h | h <;> simp [h]
    simp only [hsome, if_true, if_pos hmatch, if_neg hcond]
  · have hcond : (mapFind m "connection").getD "" ≠ "close" ∧
        (mapFind m "connection").getD "" ≠ "keep-alive" := by
      constructor <;> intro h <;> exact hmatch (by simp [h])
    rw [if_neg hmatch, if_pos hcond]
    cases hf : mapFind m "connection" with
    | none => simp [hf, mapInsert_overwrite]
    | some v => simp [hf]

theorem normalizeConnection_find (m : List (String × String)) (nProto : Int) :
    mapFind (normalizeConnection m nProto) "connection" = some "close" ∨
      mapFind (normalizeConnection m nProto) "connection" = some "keep-alive" := by
  rw [normalizeConnection_eq]
  by_cases hmatch : (mapFind m "connection").getD "" = "close" ∨
      (mapFind m "connection").getD "" = "keep-alive"
  · rw [if_pos hmatch]
    cases hf : mapFind m "connection" with
    | none => rw [hf] at hmatch; simp at hmatch
    | some v =>
      rw [hf] at hmatch
      simp only [Option.getD_some] at hmatch
      rcases hmatch with h | h <;> subst h
      · left; rfl
      · right; rfl
  · rw [if_neg hmatch]
    by_cases hp : 1 ≤ nProto
    · right; rw [if_pos hp]; exact mapFind_insert_self m _ _
    · left; rw [if_neg hp]; exact mapFind_insert_self m _ _

theorem ReadHTTPMessage_shape (s : List Char) (nProto : Int) (max_size : Nat) :
    ((ReadHTTPMessage s nProto max_size).status = HTTP_OK ∧
      (ReadHTTPMessage s nProto max_size).headers =
        normalizeConnection (ReadHTTPHeaders s).headers nProto ∧
      ¬((ReadHTTPHeaders s).nLen < 0) ∧ (ReadHTTPHeaders s).nLen.toNat ≤ max_size ∧
      ¬(0 < (ReadHTTPHeaders s).nLen.toNat ∧
        readBodyLoop (ReadHTTPHeaders s).rest (ReadHTTPHeaders s).nLen.toNat = none)) ∨
    ((ReadHTTPMessage s nProto max_size).status = HTTP_INTERNAL_SERVER_ERROR ∧
      (ReadHTTPMessage s nProto max_size).message = "" ∧
      (ReadHTTPMessage s nProto max_size).headers = (ReadHTTPHeaders s).headers ∧
      ((ReadHTTPHeaders s).nLen < 0 ∨ max_size < (ReadHTTPHeaders s).nLen.toNat ∨
        (0 < (ReadHTTPHeaders s).nLen.toNat ∧
          readBodyLoop (ReadHTTPHeaders s).rest (ReadHTTPHeaders s).nLen.toNat = none))) := by
  by_cases h1 : (ReadHTTPHeaders s).nLen < 0
  · right
    simp only [ReadHTTPMessage]
    rw [if_pos h1]
    exact ⟨rfl, rfl, rfl, Or.inl h1⟩
  · by_cases h2 : max_size < (ReadHTTPHeaders s).nLen.toNat
    · right
      simp only [ReadHTTPMessage]
      rw [if_neg h1, if_pos h2]
      exact ⟨rfl, rfl, rfl, Or.inr (Or.inl h2)⟩
    · by_cases h3 : 0 < (ReadHTTPHeaders s).nLen.toNat
      · cases hb : readBodyLoop (ReadHTTPHeaders s).rest (ReadHTTPHeaders s).nLen.toNat with
        | none =>
          right
          simp only [ReadHTTPMessage]
          rw [if_neg h1, if_neg h2, if_pos h3, hb]
          exact ⟨rfl, rfl, rfl, Or.inr (Or.inr ⟨h3, by trivial⟩)⟩
        | some p =>
          left
          simp only [ReadHTTPMessage]
          rw [if_neg h1, if_neg h2, if_pos h3, hb]
          refine ⟨rfl, rfl, h1, by omega, ?_⟩
          rintro ⟨_, hc⟩
          exact Option.noConfusion hc
      · left
        simp only [ReadHTTPMessage]
        rw [if_neg h1, if_neg h2, if_neg h3]
        exact ⟨rfl, rfl, h1, by omega, fun hc => h3 hc.1⟩

/-! ## Claim theorems -/

/-- Claim C1, counterexample: the 401 response is NOT byte-identical across
repeated calls, because it embeds the `Date` header rendered from the wall
clock (`rfc1123Time()`): two calls observing different timestamps return
different byte strings even with identical flag arguments. -/
theorem HTTPError_401_depends_on_time :
    HTTPError "Mon, 01 Jan 2024 00:00:00 +0000" "1.0.0" HTTP_UNAUTHORIZED true false ≠
      HTTPError "Tue, 02 Jan 2024 00:00:00 +0000" "1.0.0" HTTP_UNAUTHORIZED true false := by
  decide

/-- Claim C1, amended: for a fixed observed timestamp and version string,
the 401 response of `HTTPError` is byte-identical regardless of the
keep-alive and headers-only flags (the special path never reads them). -/
theorem HTTPError_401_flag_independent (time version : String) (ka1 ho1 ka2 ho2 : Bool) :
    HTTPError time version HTTP_UNAUTHORIZED ka1 ho1 =
      HTTPError time version HTTP_UNAUTHORIZED ka2 ho2 := by
  simp [HTTPError]

/-- Claim C2, counterexample: a mixed-case `connection` value (here
`"CLOSE"`) does NOT pass through unchanged — the comparison in
`ReadHTTPMessage` is exact, so the value is overwritten (to `"keep-alive"`
under protocol version 1). -/
theorem connection_mixed_case_overwritten :
    mapFind (ReadHTTPMessage (("connection: CLOSE\n\n").data) 1 100).headers "connection" =
        some "keep-alive" ∧
      mapFind (ReadHTTPMessage (("connection: CLOSE\n\n").data) 1 100).headers "connection" ≠
        some "CLOSE" := by
  decide

/-- Claim C2, amended: `ReadHTTPMessage` compares the `connection` value
exactly (case-sensitively) against `"close"` and `"keep-alive"`: on
success, exact matches leave the header map unchanged, and any other
value — including a case variant such as `"CLOSE"` — is overwritten to
`"keep-alive"` when the protocol version is ≥ 1 and to `"close"`
otherwise. -/
theorem connection_normalization_exact (s : List Char) (nProto : Int) (max_size : Nat)
    (hok : (ReadHTTPMessage s nProto max_size).status = HTTP_OK) :
    (ReadHTTPMessage s nProto max_size).headers =
      (if (mapFind (ReadHTTPHeaders s).headers "connection").getD "" = "close" ∨
          (mapFind (ReadHTTPHeaders s).headers "connection").getD "" = "keep-alive" then
        (ReadHTTPHeaders s).headers
       else
        mapInsert (ReadHTTPHeaders s).headers "connection"
          (if 1 ≤ nProto then "keep-alive" else "close")) := by
  rcases ReadHTTPMessage_shape s nProto max_size with ⟨_, hh, _⟩ | ⟨hst, _⟩
  · rw [hh, normalizeConnection_eq]
  · rw [hst] at hok
    exact absurd hok (by decide)

theorem connection_normalization_exact_witness :
    (ReadHTTPMessage (("connection: Close\n\n").data) 0 100).headers =
      (if (mapFind (ReadHTTPHeaders (("connection: Close\n\n").data)).headers
              "connection").getD "" = "close" ∨
          (mapFind (ReadHTTPHeaders (("connection: Close\n\n").data)).headers
              "connection").getD "" = "keep-alive" then
        (ReadHTTPHeaders (("connection: Close\n\n").data)).headers
       else
        mapInsert (ReadHTTPHeaders (("connection: Close\n\n").data)).headers "connection"
          (if 1 ≤ (0 : Int) then "keep-alive" else "close")) :=
  connection_normalization_exact (("connection: Close\n\n").data) 0 100 (by decide)

/-- Claim C4: for every declared body length `L` with `0 ≤ L ≤ max_size`
and every stream holding at least `L` bytes, the body reader succeeds and
returns exactly the first `L` bytes of the stream, assembled in chunks of
at most `POST_READ_SIZE = 256 KiB`. -/
theorem body_reader_exact (L max_size : Nat) (s : List Char)
    (hmax : L ≤ max_size) (hs : L ≤ s.length) :
    readBodyLoop s L = some (s.take L, s.drop L) ∧ (s.take L).length = L ∧
      POST_READ_SIZE = 256 * 1024 := by
  refine ⟨readBodyLoop_exact s L hs, ?_, rfl⟩
  rw [List.length_take]
  omega

theorem body_reader_exact_witness :
    readBodyLoop (("hello").data) 3 =
        some ((("hello").data).take 3, (("hello").data).drop 3) ∧
      ((("hello").data).take 3).length = 3 ∧ POST_READ_SIZE = 256 * 1024 :=
  body_reader_exact 3 10 (("hello").data) (by decide) (by decide)

/-- Claim C6: `JSONRPCReplyObj` serializes `result` as null whenever the
error value is non-null, regardless of the supplied result, and passes the
result through when the error is null; fields stay in the order
`result`, `error`, `id`. -/
theorem jsonrpc_reply_result_null (result error id : JValue) :
    (error ≠ JValue.jnull →
      JSONRPCReplyObj result error id =
        [("result", JValue.jnull), ("error", error), ("id", id)]) ∧
    (error = JValue.jnull →
      JSONRPCReplyObj result error id =
        [("result", result), ("error", error), ("id", id)]) := by
  constructor
  · intro h
    cases error with
    | jnull => exact absurd rfl h
    | jbool b => simp [JSONRPCReplyObj, JValue.isNull]
    | jint n => simp [JSONRPCReplyObj, JValue.isNull]
    | jstr t => simp [JSONRPCReplyObj, JValue.isNull]
    | jarr xs => simp [JSONRPCReplyObj, JValue.isNull]
    | jobj fs => simp [JSONRPCReplyObj, JValue.isNull]
  · intro h
    subst h
    simp [JSONRPCReplyObj, JValue.isNull]

theorem jsonrpc_reply_result_null_witness :
    JSONRPCReplyObj (JValue.jint 7) (JValue.jstr "boom") (JValue.jint 1) =
      [("result", JValue.jnull), ("error", JValue.jstr "boom"), ("id", JValue.jint 1)] :=
  (jsonrpc_reply_result_null (JValue.jint 7) (JValue.jstr "boom") (JValue.jint 1)).1
    (fun h => JValue.noConfusion h)

/-- Claim C10: `ReadHTTPStatus` returns the internal-error sentinel exactly
on lines whose space-split has fewer than two tokens; with two or more
tokens it returns `atoi` of the second token (so a non-numeric second
token yields 0, not the sentinel — witnessed by the `"HTTP/1.1 abc"`
conjunct). -/
theorem read_http_status_spec (s : List Char) :
    ((splitOnSpace (getlineChars s).1).length < 2 →
      ReadHTTPStatus s = (HTTP_INTERNAL_SERVER_ERROR, none, (getlineChars s).2)) ∧
    (2 ≤ (splitOnSpace (getlineChars s).1).length →
      ReadHTTPStatus s =
        (atoi ((splitOnSpace (getlineChars s).1).getD 1 []),
          some (protoFromToken (getlineChars s).1), (getlineChars s).2)) ∧
    (ReadHTTPStatus (("HTTP/1.1 abc").data)).1 = 0 := by
  refine ⟨?_, ?_, by decide⟩
  · intro h
    simp only [ReadHTTPStatus]
    rw [if_pos h]
  · intro h
    simp only [ReadHTTPStatus]
    rw [if_neg (by omega)]

theorem read_http_status_spec_witness :
    ReadHTTPStatus (("HTTP").data) =
      (HTTP_INTERNAL_SERVER_ERROR, none, (getlineChars (("HTTP").data)).2) :=
  (read_http_status_spec (("HTTP").data)).1 (by decide)

/-- Claim C5: `ReadHTTPMessage` returns either `HTTP_OK` or
`HTTP_INTERNAL_SERVER_ERROR`; it returns the error exactly when the
declared length is negative, exceeds `max_size`, or the stream fails
before the declared body is collected; and on any error the message
out-parameter is the empty string — no partial body is handed upward. -/
theorem read_http_message_failure_empty (s : List Char) (nProto : Int) (max_size : Nat) :
    ((ReadHTTPMessage s nProto max_size).status = HTTP_OK ∨
      (ReadHTTPMessage s nProto max_size).status = HTTP_INTERNAL_SERVER_ERROR) ∧
    ((ReadHTTPMessage s nProto max_size).status = HTTP_INTERNAL_SERVER_ERROR ↔
      ((ReadHTTPHeaders s).nLen < 0 ∨ max_size < (ReadHTTPHeaders s).nLen.toNat ∨
        (0 < (ReadHTTPHeaders s).nLen.toNat ∧
          readBodyLoop (ReadHTTPHeaders s).rest (ReadHTTPHeaders s).nLen.toNat = none))) ∧
    ((ReadHTTPMessage s nProto max_size).status ≠ HTTP_OK →
      (ReadHTTPMessage s nProto max_size).message = "") := by
  rcases ReadHTTPMessage_shape s nProto max_size with
    ⟨hst, _, hn1, hn2, hn3⟩ | ⟨hst, hmsg, _, hcond⟩
  · refine ⟨Or.inl hst, ⟨?_, ?_⟩, fun hne => absurd hst hne⟩
    · intro he
      rw [hst] at he
      exact absurd he (by decide)
    · intro hc
      rcases hc with h | h | h
      · exact absurd h hn1
      · omega
      · exact absurd h hn3
  · exact ⟨Or.inr hst, ⟨fun _ => hcond, fun _ => hst⟩, fun _ => hmsg⟩

theorem read_http_message_failure_empty_witness :
    (ReadHTTPMessage (("content-length: 5\n\nab").data) 0 100).message = "" :=
  (read_http_message_failure_empty (("content-length: 5\n\nab").data) 0 100).2.2 (by decide)

/-- Claim C9: whenever `ReadHTTPMessage` returns `HTTP_OK`, the returned
header map's `connection` entry is exactly `"close"` or exactly
`"keep-alive"`: the normalization comparison is exact, so any other peer
value (including mixed case) has been overwritten. -/
theorem connection_header_normalized_on_ok (s : List Char) (nProto : Int) (max_size : Nat)
    (hok : (ReadHTTPMessage s nProto max_size).status = HTTP_OK) :
    mapFind (ReadHTTPMessage s nProto max_size).headers "connection" = some "close" ∨
      mapFind (ReadHTTPMessage s nProto max_size).headers "connection" =
        some "keep-alive" := by
  rcases ReadHTTPMessage_shape s nProto max_size with ⟨_, hh, _⟩ | ⟨hst, _⟩
  · rw [hh]
    exact normalizeConnection_find _ _
  · rw [hst] at hok
    exact absurd hok (by decide)

theorem connection_header_normalized_on_ok_witness :
    mapFind (ReadHTTPMessage (("\n").data) 0 100).headers "connection" = some "close" ∨
      mapFind (ReadHTTPMessage (("\n").data) 0 100).headers "connection" =
        some "keep-alive" :=
  connection_header_normalized_on_ok (("\n").data) 0 100 (by decide)

/-- Claim C7: the declared body length tracked by `ReadHTTPHeaders` depends
only on the trimmed, lowercased header name — any casing/whitespace variant
of `Content-Length` updates it to `atoi` of the trimmed value, with the
value stored under the canonical key (last write wins, witnessed by the
duplicate-header conjuncts); a stream without the header, or with an
unparsable value, resolves to 0 with no error signal. -/
theorem content_length_header_insensitive :
    (∀ (nm v rest : List Char) (m0 : List (String × String)) (len0 : Int) (fuel : Nat),
      (nm ++ ':' :: v ++ '\n' :: rest).length < fuel → ':' ∉ nm → '\n' ∉ nm → '\n' ∉ v →
      canonName nm = "content-length" →
      ReadHTTPHeadersAux fuel (nm ++ ':' :: v ++ '\n' :: rest) m0 len0 =
        ReadHTTPHeadersAux fuel rest
          (mapInsert m0 "content-length" (String.mk (trimChars v))) (atoi (trimChars v))) ∧
    (ReadHTTPHeaders (("Host: x\n\n").data)).nLen = 0 ∧
    (ReadHTTPHeaders (("content-length: abc\n\n").data)).nLen = 0 ∧
    (ReadHTTPHeaders (("content-length: 5\nContent-Length: 7\n\n").data)).headers =
      [("content-length", "7")] ∧
    (ReadHTTPHeaders (("content-length: 5\nContent-Length: 7\n\n").data)).nLen = 7 := by
  refine ⟨?_, by decide, by decide, by decide, by decide⟩
  intro nm v rest m0 len0 fuel hfuel hnm1 hnm2 hv hcanon
  have h := headersAux_step fuel nm v rest m0 len0 hfuel hnm1 hnm2 hv
  rw [hcanon] at h
  rw [h, if_pos rfl]

theorem content_length_header_insensitive_witness :
    ReadHTTPHeadersAux 23 (((" Content-LENGTH ").data) ++ ':' :: ((" 10").data) ++
        '\n' :: (("\n").data)) [] 0 =
      ReadHTTPHeadersAux 23 (("\n").data)
        (mapInsert [] "content-length" (String.mk (trimChars ((" 10").data))))
        (atoi (trimChars ((" 10").data))) :=
  content_length_header_insensitive.1 ((" Content-LENGTH ").data) ((" 10").data)
    (("\n").data) [] 0 23 (by decide) (by decide) (by decide) (by decide) (by decide)

/-- Claim C8: `ReadHTTPRequestLine` fails exactly when the space-split has
fewer than two tokens, the method is neither `GET` nor `POST`, or the URI
token is empty or does not start with `/`; on success the protocol version
comes from the third token via the `"HTTP/1."` scan (`protoFromToken`),
which yields the default 0 whenever no third token is present. -/
theorem request_line_parser_spec (line : List Char) :
    (ReadHTTPRequestLine line = none ↔
      (splitOnSpace line).length < 2 ∨
      (String.mk ((splitOnSpace line).getD 0 []) ≠ "GET" ∧
        String.mk ((splitOnSpace line).getD 0 []) ≠ "POST") ∨
      (splitOnSpace line).getD 1 [] = [] ∨
      ((splitOnSpace line).getD 1 []).headD ' ' ≠ '/') ∧
    (∀ p m u, ReadHTTPRequestLine line = some (p, m, u) →
      p = protoFromToken ((splitOnSpace line).getD 2 []) ∧
      m = String.mk ((splitOnSpace line).getD 0 []) ∧
      u = String.mk ((splitOnSpace line).getD 1 [])) ∧
    ((splitOnSpace line).length ≤ 2 → protoFromToken ((splitOnSpace line).getD 2 []) = 0) := by
  refine ⟨?_, ?_, ?_⟩
  · simp only [ReadHTTPRequestLine]
    split_ifs with h1 h2 h3 h4 <;> simp_all
  · intro p m u h
    simp only [ReadHTTPRequestLine] at h
    split_ifs at h with h1 h2 h3 h4
    injection h with h'
    rw [Prod.mk.injEq, Prod.mk.injEq] at h'
    exact ⟨h'.1.symm, h'.2.1.symm, h'.2.2.symm⟩
  · intro hlen
    rw [List.getD_eq_default _ _ (by omega)]
    decide

theorem request_line_parser_spec_witness :
    (1 : Int) = protoFromToken ((splitOnSpace (("POST / HTTP/1.1").data)).getD 2 []) :=
  ((request_line_parser_spec (("POST / HTTP/1.1").data)).2.1 1 "POST" "/" (by decide)).1

theorem len_step_lt (nm v rest : List Char) :
    rest.length < (nm ++ ':' :: v ++ '\n' :: rest).length := by
  simp [List.length_append]
  omega

theorem strData_append (a b : String) : (a ++ b).data = a.data ++ b.data := rfl

theorem strData_mk (l : List Char) : (String.mk l).data = l := rfl

theorem post_headers_read (version : String) (n : Nat) (body : List Char)
    (hv : '\n' ∉ version.data) :
    (ReadHTTPHeaders ((("User-Agent").data) ++ ':' :: ((" nodex-json-rpc/").data ++ version.data) ++ '\n' :: ((("Host").data) ++ ':' :: ((" 127.0.0.1").data) ++ '\n' :: ((("Content-Type").data) ++ ':' :: ((" application/json").data) ++ '\n' :: ((("Content-Length").data) ++ ':' :: (' ' :: natDecimal n) ++ '\n' :: ((("Connection").data) ++ ':' :: ((" close").data) ++ '\n' :: ((("Accept").data) ++ ':' :: ((" application/json").data) ++ '\n' :: ('\n' :: body)))))))).nLen = (n : Int) ∧
    (ReadHTTPHeaders ((("User-Agent").data) ++ ':' :: ((" nodex-json-rpc/").data ++ version.data) ++ '\n' :: ((("Host").data) ++ ':' :: ((" 127.0.0.1").data) ++ '\n' :: ((("Content-Type").data) ++ ':' :: ((" application/json").data) ++ '\n' :: ((("Content-Length").data) ++ ':' :: (' ' :: natDecimal n) ++ '\n' :: ((("Connection").data) ++ ':' :: ((" close").data) ++ '\n' :: ((("Accept").data) ++ ':' :: ((" application/json").data) ++ '\n' :: ('\n' :: body)))))))).rest = body := by
  have d1 : '\n' ∉ ((" nodex-json-rpc/").data ++ version.data) :=
    newline_not_mem_append _ _ (by decide) hv
  have dCL : '\n' ∉ (' ' :: natDecimal n) := by
    intro hmem
    rcases List.mem_cons.mp hmem with h | h
    · exact absurd h (by decide)
    · exact newline_not_mem_natDecimal n h
  have c2 : (List.length ((("Host").data) ++ ':' :: ((" 127.0.0.1").data) ++ '\n' :: ((("Content-Type").data) ++ ':' :: ((" application/json").data) ++ '\n' :: ((("Content-Length").data) ++ ':' :: (' ' :: natDecimal n) ++ '\n' :: ((("Connection").data) ++ ':' :: ((" close").data) ++ '\n' :: ((("Accept").data) ++ ':' :: ((" application/json").data) ++ '\n' :: ('\n' :: body))))))) < (List.length ((("User-Agent").data) ++ ':' :: ((" nodex-json-rpc/").data ++ version.data) ++ '\n' :: ((("Host").data) ++ ':' :: ((" 127.0.0.1").data) ++ '\n' :: ((("Content-Type").data) ++ ':' :: ((" application/json").data) ++ '\n' :: ((("Content-Length").data) ++ ':' :: (' ' :: natDecimal n) ++ '\n' :: ((("Connection").data) ++ ':' :: ((" close").data) ++ '\n' :: ((("Accept").data) ++ ':' :: ((" application/json").data) ++ '\n' :: ('\n' :: body)))))))) :=
    len_step_lt (("User-Agent").data) ((" nodex-json-rpc/").data ++ version.data) ((("Host").data) ++ ':' :: ((" 127.0.0.1").data) ++ '\n' :: ((("Content-Type").data) ++ ':' :: ((" application/json").data) ++ '\n' :: ((("Content-Length").data) ++ ':' :: (' ' :: natDecimal n) ++ '\n' :: ((("Connection").data) ++ ':' :: ((" close").data) ++ '\n' :: ((("Accept").data) ++ ':' :: ((" application/json").data) ++ '\n' :: ('\n' :: body))))))
  have c3 : (List.length ((("Content-Type").data) ++ ':' :: ((" application/json").data) ++ '\n' :: ((("Content-Length").data) ++ ':' :: (' ' :: natDecimal n) ++ '\n' :: ((("Connection").data) ++ ':' :: ((" close").data) ++ '\n' :: ((("Accept").data) ++ ':' :: ((" application/json").data) ++ '\n' :: ('\n' :: body)))))) < (List.length ((("Host").data) ++ ':' :: ((" 127.0.0.1").data) ++ '\n' :: ((("Content-Type").data) ++ ':' :: ((" application/json").data) ++ '\n' :: ((("Content-Length").data) ++ ':' :: (' ' :: natDecimal n) ++ '\n' :: ((("Connection").data) ++ ':' :: ((" close").data) ++ '\n' :: ((("Accept").data) ++ ':' :: ((" application/json").data) ++ '\n' :: ('\n' :: body))))))) :=
    len_step_lt (("Host").data) ((" 127.0.0.1").data) ((("Content-Type").data) ++ ':' :: ((" application/json").data) ++ '\n' :: ((("Content-Length").data) ++ ':' :: (' ' :: natDecimal n) ++ '\n' :: ((("Connection").data) ++ ':' :: ((" close").data) ++ '\n' :: ((("Accept").data) ++ ':' :: ((" application/json").data) ++ '\n' :: ('\n' :: body)))))
  have c4 : (List.length ((("Content-Length").data) ++ ':' :: (' ' :: natDecimal n) ++ '\n' :: ((("Connection").data) ++ ':' :: ((" close").data) ++ '\n' :: ((("Accept").data) ++ ':' :: ((" application/json").data) ++ '\n' :: ('\n' :: body))))) < (List.length ((("Content-Type").data) ++ ':' :: ((" application/json").data) ++ '\n' :: ((("Content-Length").data) ++ ':' :: (' ' :: natDecimal n) ++ '\n' :: ((("Connection").data) ++ ':' :: ((" close").data) ++ '\n' :: ((("Accept").data) ++ ':' :: ((" application/json").data) ++ '\n' :: ('\n' :: body)))))) :=
    len_step_lt (("Content-Type").data) ((" application/json").data) ((("Content-Length").data) ++ ':' :: (' ' :: natDecimal n) ++ '\n' :: ((("Connection").data) ++ ':' :: ((" close").data) ++ '\n' :: ((("Accept").data) ++ ':' :: ((" application/json").data) ++ '\n' :: ('\n' :: body))))
  have c5 : (List.length ((("Connection").data) ++ ':' :: ((" close").data) ++ '\n' :: ((("Accept").data) ++ ':' :: ((" application/json").data) ++ '\n' :: ('\n' :: body)))) < (List.length ((("Content-Length").data) ++ ':' :: (' ' :: natDecimal n) ++ '\n' :: ((("Connection").data) ++ ':' :: ((" close").data) ++ '\n' :: ((("Accept").data) ++ ':' :: ((" application/json").data) ++ '\n' :: ('\n' :: body))))) :=
    len_step_lt (("Content-Length").data) (' ' :: natDecimal n) ((("Connection").data) ++ ':' :: ((" close").data) ++ '\n' :: ((("Accept").data) ++ ':' :: ((" application/json").data) ++ '\n' :: ('\n' :: body)))
  have c6 : (List.length ((("Accept").data) ++ ':' :: ((" application/json").data) ++ '\n' :: ('\n' :: body))) < (List.length ((("Connection").data) ++ ':' :: ((" close").data) ++ '\n' :: ((("Accept").data) ++ ':' :: ((" application/json").data) ++ '\n' :: ('\n' :: body)))) :=
    len_step_lt (("Connection").data) ((" close").data) ((("Accept").data) ++ ':' :: ((" application/json").data) ++ '\n' :: ('\n' :: body))
  have c7 : (List.length ('\n' :: body)) < (List.length ((("Accept").data) ++ ':' :: ((" application/json").data) ++ '\n' :: ('\n' :: body))) :=
    len_step_lt (("Accept").data) ((" application/json").data) ('\n' :: body)
  simp only [ReadHTTPHeaders]
  rw [headersAux_step ((List.length ((("User-Agent").data) ++ ':' :: ((" nodex-json-rpc/").data ++ version.data) ++ '\n' :: ((("Host").data) ++ ':' :: ((" 127.0.0.1").data) ++ '\n' :: ((("Content-Type").data) ++ ':' :: ((" application/json").data) ++ '\n' :: ((("Content-Length").data) ++ ':' :: (' ' :: natDecimal n) ++ '\n' :: ((("Connection").data) ++ ':' :: ((" close").data) ++ '\n' :: ((("Accept").data) ++ ':' :: ((" application/json").data) ++ '\n' :: ('\n' :: body)))))))) + 1) (("User-Agent").data) ((" nodex-json-rpc/").data ++ version.data) ((("Host").data) ++ ':' :: ((" 127.0.0.1").data) ++ '\n' :: ((("Content-Type").data) ++ ':' :: ((" application/json").data) ++ '\n' :: ((("Content-Length").data) ++ ':' :: (' ' :: natDecimal n) ++ '\n' :: ((("Connection").data) ++ ':' :: ((" close").data) ++ '\n' :: ((("Accept").data) ++ ':' :: ((" application/json").data) ++ '\n' :: ('\n' :: body)))))) _ _
    (by omega) (by decide) (by decide) d1]
  rw [if_neg (by decide : ¬(canonName (("User-Agent").data) = "content-length"))]
  rw [headersAux_step ((List.length ((("User-Agent").data) ++ ':' :: ((" nodex-json-rpc/").data ++ version.data) ++ '\n' :: ((("Host").data) ++ ':' :: ((" 127.0.0.1").data) ++ '\n' :: ((("Content-Type").data) ++ ':' :: ((" application/json").data) ++ '\n' :: ((("Content-Length").data) ++ ':' :: (' ' :: natDecimal n) ++ '\n' :: ((("Connection").data) ++ ':' :: ((" close").data) ++ '\n' :: ((("Accept").data) ++ ':' :: ((" application/json").data) ++ '\n' :: ('\n' :: body)))))))) + 1) (("Host").data) ((" 127.0.0.1").data) ((("Content-Type").data) ++ ':' :: ((" application/json").data) ++ '\n' :: ((("Content-Length").data) ++ ':' :: (' ' :: natDecimal n) ++ '\n' :: ((("Connection").data) ++ ':' :: ((" close").data) ++ '\n' :: ((("Accept").data) ++ ':' :: ((" application/json").data) ++ '\n' :: ('\n' :: body))))) _ _
    (by omega) (by decide) (by decide) (by decide)]
  rw [if_neg (by decide : ¬(canonName (("Host").data) = "content-length"))]
  rw [headersAux_step ((List.length ((("User-Agent").data) ++ ':' :: ((" nodex-json-rpc/").data ++ version.data) ++ '\n' :: ((("Host").data) ++ ':' :: ((" 127.0.0.1").data) ++ '\n' :: ((("Content-Type").data) ++ ':' :: ((" application/json").data) ++ '\n' :: ((("Content-Length").data) ++ ':' :: (' ' :: natDecimal n) ++ '\n' :: ((("Connection").data) ++ ':' :: ((" close").data) ++ '\n' :: ((("Accept").data) ++ ':' :: ((" application/json").data) ++ '\n' :: ('\n' :: body)))))))) + 1) (("Content-Type").data) ((" application/json").data) ((("Content-Length").data) ++ ':' :: (' ' :: natDecimal n) ++ '\n' :: ((("Connection").data) ++ ':' :: ((" close").data) ++ '\n' :: ((("Accept").data) ++ ':' :: ((" application/json").data) ++ '\n' :: ('\n' :: body)))) _ _
    (by omega) (by decide) (by decide) (by decide)]
  rw [if_neg (by decide : ¬(canonName (("Content-Type").data) = "content-length"))]
  rw [headersAux_step ((List.length ((("User-Agent").data) ++ ':' :: ((" nodex-json-rpc/").data ++ version.data) ++ '\n' :: ((("Host").data) ++ ':' :: ((" 127.0.0.1").data) ++ '\n' :: ((("Content-Type").data) ++ ':' :: ((" application/json").data) ++ '\n' :: ((("Content-Length").data) ++ ':' :: (' ' :: natDecimal n) ++ '\n' :: ((("Connection").data) ++ ':' :: ((" close").data) ++ '\n' :: ((("Accept").data) ++ ':' :: ((" application/json").data) ++ '\n' :: ('\n' :: body)))))))) + 1) (("Content-Length").data) (' ' :: natDecimal n) ((("Connection").data) ++ ':' :: ((" close").data) ++ '\n' :: ((("Accept").data) ++ ':' :: ((" application/json").data) ++ '\n' :: ('\n' :: body))) _ _
    (by omega) (by decide) (by decide) dCL]
  rw [if_pos (by decide : canonName (("Content-Length").data) = "content-length")]
  rw [trim_space_digits (natDecimal n) (natDecimal_digits n), atoi_natDecimal n]
  rw [headersAux_step ((List.length ((("User-Agent").data) ++ ':' :: ((" nodex-json-rpc/").data ++ version.data) ++ '\n' :: ((("Host").data) ++ ':' :: ((" 127.0.0.1").data) ++ '\n' :: ((("Content-Type").data) ++ ':' :: ((" application/json").data) ++ '\n' :: ((("Content-Length").data) ++ ':' :: (' ' :: natDecimal n) ++ '\n' :: ((("Connection").data) ++ ':' :: ((" close").data) ++ '\n' :: ((("Accept").data) ++ ':' :: ((" application/json").data) ++ '\n' :: ('\n' :: body)))))))) + 1) (("Connection").data) ((" close").data) ((("Accept").data) ++ ':' :: ((" application/json").data) ++ '\n' :: ('\n' :: body)) _ _
    (by omega) (by decide) (by decide) (by decide)]
  rw [if_neg (by decide : ¬(canonName (("Connection").data) = "content-length"))]
  rw [headersAux_step ((List.length ((("User-Agent").data) ++ ':' :: ((" nodex-json-rpc/").data ++ version.data) ++ '\n' :: ((("Host").data) ++ ':' :: ((" 127.0.0.1").data) ++ '\n' :: ((("Content-Type").data) ++ ':' :: ((" application/json").data) ++ '\n' :: ((("Content-Length").data) ++ ':' :: (' ' :: natDecimal n) ++ '\n' :: ((("Connection").data) ++ ':' :: ((" close").data) ++ '\n' :: ((("Accept").data) ++ ':' :: ((" application/json").data) ++ '\n' :: ('\n' :: body)))))))) + 1) (("Accept").data) ((" application/json").data) ('\n' :: body) _ _
    (by omega) (by decide) (by decide) (by decide)]
  rw [if_neg (by decide : ¬(canonName (("Accept").data) = "content-length"))]
  rw [headersAux_blank ((List.length ((("User-Agent").data) ++ ':' :: ((" nodex-json-rpc/").data ++ version.data) ++ '\n' :: ((("Host").data) ++ ':' :: ((" 127.0.0.1").data) ++ '\n' :: ((("Content-Type").data) ++ ':' :: ((" application/json").data) ++ '\n' :: ((("Content-Length").data) ++ ':' :: (' ' :: natDecimal n) ++ '\n' :: ((("Connection").data) ++ ':' :: ((" close").data) ++ '\n' :: ((("Accept").data) ++ ':' :: ((" application/json").data) ++ '\n' :: ('\n' :: body)))))))) + 1) body _ _ (by omega)]
  exact ⟨rfl, rfl⟩

theorem HTTPPost_data (version strMsg : String) :
    (HTTPPost version strMsg []).data =
      ("POST / HTTP/1.1").data ++ '\n' :: ((("User-Agent").data) ++ ':' :: ((" nodex-json-rpc/").data ++ version.data) ++ '\n' :: ((("Host").data) ++ ':' :: ((" 127.0.0.1").data) ++ '\n' :: ((("Content-Type").data) ++ ':' :: ((" application/json").data) ++ '\n' :: ((("Content-Length").data) ++ ':' :: (' ' :: natDecimal strMsg.length) ++ '\n' :: ((("Connection").data) ++ ':' :: ((" close").data) ++ '\n' :: ((("Accept").data) ++ ':' :: ((" application/json").data) ++ '\n' :: ('\n' :: strMsg.data))))))) := by
  have g0 : headerLinesStr [] = "" := rfl
  have gE : ("").data = ([] : List Char) := by decide
  have g1 : ("POST / HTTP/1.1\n").data = ("POST / HTTP/1.1").data ++ ['\n'] := by decide
  have g2 : ("User-Agent: nodex-json-rpc/").data =
      ("User-Agent").data ++ ':' :: (" nodex-json-rpc/").data := by decide
  have g3 : ("\n").data = ['\n'] := by decide
  have g4 : ("Host: 127.0.0.1\n").data =
      ("Host").data ++ ':' :: (" 127.0.0.1").data ++ ['\n'] := by decide
  have g5 : ("Content-Type: application/json\n").data =
      ("Content-Type").data ++ ':' :: (" application/json").data ++ ['\n'] := by decide
  have g6 : ("Content-Length: ").data = ("Content-Length").data ++ ':' :: [' '] := by decide
  have g7 : ("Connection: close\n").data =
      ("Connection").data ++ ':' :: (" close").data ++ ['\n'] := by decide
  have g8 : ("Accept: application/json\n").data =
      ("Accept").data ++ ':' :: (" application/json").data ++ ['\n'] := by decide
  simp only [HTTPPost, strData_append, strData_mk, g0, gE, g1, g2, g3, g4, g5, g6, g7, g8,
    List.append_assoc, List.cons_append, List.nil_append, List.singleton_append]


theorem ReadHTTPMessage_message (s : List Char) (nProto : Int) (max_size : Nat) (n : Nat)
    (body : List Char)
    (h1 : (ReadHTTPHeaders s).nLen = (n : Int))
    (h2 : (ReadHTTPHeaders s).rest = body)
    (hn : n ≤ max_size) (hb : n ≤ body.length) (hpos : 0 < n) :
    (ReadHTTPMessage s nProto max_size).message = String.mk (body.take n) := by
  simp only [ReadHTTPMessage, h1, h2]
  rw [if_neg (by omega : ¬((n : Int) < 0))]
  rw [show ((n : Int)).toNat = n from rfl]
  rw [if_neg (by omega : ¬(max_size < n)), if_pos hpos]
  rw [readBodyLoop_exact body n hb]

/-- Claim C3: round-trip — serialize the JSON-RPC request for `"getinfo"`
with empty params and id 1 (through the opaque serializer `ws`), render it
with `HTTPPost` and its computed headers, consume the request line, and run
the rest through `ReadHTTPMessage`: the request line parses as
`POST / HTTP/1.1` and the recovered message body equals the original
serialized request text, for every serializer output and every
newline-free version string. -/
theorem getinfo_roundtrip (ws : JValue → String) (version : String) (max_size : Nat)
    (hv : '\n' ∉ version.data)
    (hm : (JSONRPCRequest ws "getinfo" [] (JValue.jint 1)).length ≤ max_size) :
    ReadHTTPRequestLine (getlineChars ((HTTPPost version
        (JSONRPCRequest ws "getinfo" [] (JValue.jint 1)) []).data)).1 =
      some (1, "POST", "/") ∧
    (ReadHTTPMessage (getlineChars ((HTTPPost version
        (JSONRPCRequest ws "getinfo" [] (JValue.jint 1)) []).data)).2 1 max_size).message =
      JSONRPCRequest ws "getinfo" [] (JValue.jint 1) := by
  set strMsg := JSONRPCRequest ws "getinfo" [] (JValue.jint 1) with hmsg
  have hpos : 0 < strMsg.length := by
    rw [hmsg]
    simp only [JSONRPCRequest, String.length_append]
    rw [show ("\n").length = 1 from rfl]
    omega
  have hline : getlineChars ((HTTPPost version strMsg []).data) =
      (("POST / HTTP/1.1").data, ((("User-Agent").data) ++ ':' :: ((" nodex-json-rpc/").data ++ version.data) ++ '\n' :: ((("Host").data) ++ ':' :: ((" 127.0.0.1").data) ++ '\n' :: ((("Content-Type").data) ++ ':' :: ((" application/json").data) ++ '\n' :: ((("Content-Length").data) ++ ':' :: (' ' :: natDecimal strMsg.length) ++ '\n' :: ((("Connection").data) ++ ':' :: ((" close").data) ++ '\n' :: ((("Accept").data) ++ ':' :: ((" application/json").data) ++ '\n' :: ('\n' :: strMsg.data)))))))) := by
    rw [HTTPPost_data]
    exact getlineChars_append _ _ (by decide)
  have hh := post_headers_read version strMsg.length strMsg.data hv
  constructor
  · rw [hline]
    show ReadHTTPRequestLine (("POST / HTTP/1.1").data) = some (1, "POST", "/")
    decide
  · rw [hline]
    show (ReadHTTPMessage ((("User-Agent").data) ++ ':' :: ((" nodex-json-rpc/").data ++ version.data) ++ '\n' :: ((("Host").data) ++ ':' :: ((" 127.0.0.1").data) ++ '\n' :: ((("Content-Type").data) ++ ':' :: ((" application/json").data) ++ '\n' :: ((("Content-Length").data) ++ ':' :: (' ' :: natDecimal strMsg.length) ++ '\n' :: ((("Connection").data) ++ ':' :: ((" close").data) ++ '\n' :: ((("Accept").data) ++ ':' :: ((" application/json").data) ++ '\n' :: ('\n' :: strMsg.data))))))) 1 max_size).message = strMsg
    have hres := ReadHTTPMessage_message ((("User-Agent").data) ++ ':' :: ((" nodex-json-rpc/").data ++ version.data) ++ '\n' :: ((("Host").data) ++ ':' :: ((" 127.0.0.1").data) ++ '\n' :: ((("Content-Type").data) ++ ':' :: ((" application/json").data) ++ '\n' :: ((("Content-Length").data) ++ ':' :: (' ' :: natDecimal strMsg.length) ++ '\n' :: ((("Connection").data) ++ ':' :: ((" close").data) ++ '\n' :: ((("Accept").data) ++ ':' :: ((" application/json").data) ++ '\n' :: ('\n' :: strMsg.data))))))) 1 max_size strMsg.length strMsg.data
      hh.1 hh.2 hm (Nat.le_refl _) hpos
    rw [hres]
    rw [show strMsg.data.take strMsg.length = strMsg.data from List.take_length strMsg.data]

theorem getinfo_roundtrip_witness :
    (ReadHTTPMessage (getlineChars ((HTTPPost "1.0.0"
        (JSONRPCRequest (fun _ => "\x7b\"method\":\"getinfo\",\"params\":[],\"id\":1\x7d")
          "getinfo" [] (JValue.jint 1)) []).data)).2 1 1000).message =
      JSONRPCRequest (fun _ => "\x7b\"method\":\"getinfo\",\"params\":[],\"id\":1\x7d")
        "getinfo" [] (JValue.jint 1) :=
  (getinfo_roundtrip (fun _ => "\x7b\"method\":\"getinfo\",\"params\":[],\"id\":1\x7d")
    "1.0.0" 1000 (by decide) (by decide)).2
